import Mathlib

/-!
Verification of `system/types/bt_transport.h` from the Android Bluetooth
module.  The header defines three integer transport constants and one pure
formatting function, `bt_transport_text`, turning a `tBT_TRANSPORT`
(a `uint8_t`) into a human-readable label.  We embed the header shallowly:
`uint8_t` becomes `Fin 256`, `std::string` becomes `String`, and
`std::to_string` on the (integer-promoted) byte becomes `Nat.repr` of its
value, Lean's decimal rendering of a natural number.
-/

set_option maxRecDepth 100000

namespace BtTransport

/-- `#define BT_TRANSPORT_AUTO 0` -/
def BT_TRANSPORT_AUTO : Nat := 0

/-- `#define BT_TRANSPORT_BR_EDR 1` -/
def BT_TRANSPORT_BR_EDR : Nat := 1

/-- `#define BT_TRANSPORT_LE 2` -/
def BT_TRANSPORT_LE : Nat := 2

/-- `typedef uint8_t tBT_TRANSPORT;` — an unsigned 8-bit integer. -/
abbrev tBT_TRANSPORT : Type := Fin 256

/-- The body of `bt_transport_text`: a `switch` on the byte whose three
`CASE_RETURN_TEXT` arms return the stringized macro name of the matching
constant, and whose `default` arm returns
`"UNKNOWN[" + std::to_string(transport) + "]"`. -/
def bt_transport_text (transport : tBT_TRANSPORT) : String :=
  if transport.val = BT_TRANSPORT_AUTO then "BT_TRANSPORT_AUTO"
  else if transport.val = BT_TRANSPORT_BR_EDR then "BT_TRANSPORT_BR_EDR"
  else if transport.val = BT_TRANSPORT_LE then "BT_TRANSPORT_LE"
  else "UNKNOWN[" ++ Nat.repr transport.val ++ "]"

/-- A caller-side view of one invocation of `bt_transport_text`: the ambient
program state `w` (of any type `W`) and the input byte are passed in, and the
call hands back the state, the input and the produced string.  The C++
function reads its `const` reference argument, builds the return string and
touches nothing else, so the state and the input come back unchanged. -/
def bt_transport_text_call {W : Type} (w : W) (transport : tBT_TRANSPORT) :
    W × tBT_TRANSPORT × String :=
  (w, transport, bt_transport_text transport)

/-- A decoder used to establish injectivity of `bt_transport_text`: it maps
each of the three symbolic names back to its constant and parses the decimal
payload out of a fallback label. -/
def transport_decode (s : String) : Option Nat :=
  if s = "BT_TRANSPORT_AUTO" then some BT_TRANSPORT_AUTO
  else if s = "BT_TRANSPORT_BR_EDR" then some BT_TRANSPORT_BR_EDR
  else if s = "BT_TRANSPORT_LE" then some BT_TRANSPORT_LE
  else some (((s.data.drop 8).dropLast).foldl
    (fun n c => n * 10 + (c.toNat - 48)) 0)

/-- On every 8-bit code, `transport_decode` recovers the code from the label:
`bt_transport_text` has a left inverse on its whole domain. -/
lemma transport_decode_text :
    ∀ t : tBT_TRANSPORT,
      transport_decode (bt_transport_text t) = some t.val := by decide

/-- Claim C1: for every input code in 0, 1, 2, `bt_transport_text` returns
exactly the symbolic name of the corresponding constant. -/
theorem text_of_recognized_codes :
    bt_transport_text 0 = "BT_TRANSPORT_AUTO" ∧
    bt_transport_text 1 = "BT_TRANSPORT_BR_EDR" ∧
    bt_transport_text 2 = "BT_TRANSPORT_LE" := by decide

/-- Claim C2: for every 8-bit code outside 0, 1, 2, `bt_transport_text`
returns exactly the string `UNKNOWN[<value>]`, where `<value>` is the decimal
representation of the input integer. -/
theorem text_of_unrecognized_code (t : tBT_TRANSPORT)
    (h0 : t.val ≠ BT_TRANSPORT_AUTO) (h1 : t.val ≠ BT_TRANSPORT_BR_EDR)
    (h2 : t.val ≠ BT_TRANSPORT_LE) :
    bt_transport_text t = "UNKNOWN[" ++ Nat.repr t.val ++ "]" := by
  unfold bt_transport_text
  rw [if_neg h0, if_neg h1, if_neg h2]

/-- Witness for claim C2 at the concrete input 255: the hypotheses hold and
the returned string is literally `UNKNOWN[255]`. -/
theorem text_of_unrecognized_code_witness :
    (255 : tBT_TRANSPORT).val ≠ BT_TRANSPORT_AUTO ∧
    (255 : tBT_TRANSPORT).val ≠ BT_TRANSPORT_BR_EDR ∧
    (255 : tBT_TRANSPORT).val ≠ BT_TRANSPORT_LE ∧
    bt_transport_text 255 = "UNKNOWN[" ++ Nat.repr (255 : tBT_TRANSPORT).val ++ "]" ∧
    bt_transport_text 255 = "UNKNOWN[255]" :=
  ⟨by decide, by decide, by decide,
   text_of_unrecognized_code 255 (by decide) (by decide) (by decide), by decide⟩

/-- Claim C3: `bt_transport_text` is total over the whole 8-bit domain: every
one of the 256 inputs is accepted and produces a string, which is either one
of the three symbolic names or the diagnostic fallback — there is no failing
case. -/
theorem text_total :
    ∀ t : tBT_TRANSPORT,
      bt_transport_text t = "BT_TRANSPORT_AUTO" ∨
      bt_transport_text t = "BT_TRANSPORT_BR_EDR" ∨
      bt_transport_text t = "BT_TRANSPORT_LE" ∨
      bt_transport_text t = "UNKNOWN[" ++ Nat.repr t.val ++ "]" := by decide

/-- Claim C4: for every 8-bit input code, the string returned by
`bt_transport_text` is non-empty. -/
theorem text_nonempty :
    ∀ t : tBT_TRANSPORT, bt_transport_text t ≠ "" := by decide

/-- Claim C5: `bt_transport_text` is deterministic and pure — two calls with
identical input codes produce identical output strings. -/
theorem text_deterministic (t u : tBT_TRANSPORT) (h : t = u) :
    bt_transport_text t = bt_transport_text u :=
  congrArg bt_transport_text h

/-- Witness for claim C5 at the concrete input 2. -/
theorem text_deterministic_witness :
    bt_transport_text 2 = bt_transport_text 2 :=
  text_deterministic 2 2 rfl

/-- Claim C6: the file exports exactly three named integer transport
constants, with values 0 (`BT_TRANSPORT_AUTO`), 1 (`BT_TRANSPORT_BR_EDR`)
and 2 (`BT_TRANSPORT_LE`). -/
theorem transport_constants_values :
    BT_TRANSPORT_AUTO = 0 ∧ BT_TRANSPORT_BR_EDR = 1 ∧ BT_TRANSPORT_LE = 2 :=
  ⟨rfl, rfl, rfl⟩

/-- Claim C7: a call to `bt_transport_text` has no side effects: the ambient
state is unchanged, the input code is unchanged, and the only thing produced
is the returned string. -/
theorem text_call_frame {W : Type} (w : W) (t : tBT_TRANSPORT) :
    (bt_transport_text_call w t).1 = w ∧
    (bt_transport_text_call w t).2.1 = t ∧
    (bt_transport_text_call w t).2.2 = bt_transport_text t :=
  ⟨rfl, rfl, rfl⟩

/-- Claim C8: `bt_transport_text` is injective on the 8-bit domain — distinct
input codes always yield distinct strings. -/
theorem text_injective (t u : tBT_TRANSPORT) (h : t ≠ u) :
    bt_transport_text t ≠ bt_transport_text u := by
  intro heq
  have ht := transport_decode_text t
  rw [heq, transport_decode_text u] at ht

  exact h (Fin.val_injective (Option.some.inj ht)).symm

/-- Witness for claim C8 at the concrete pair 3 and 0: the fallback label of
3 differs from the symbolic name of 0. -/
theorem text_injective_witness :
    (3 : tBT_TRANSPORT) ≠ 0 ∧ bt_transport_text 3 ≠ bt_transport_text 0 :=
  ⟨by decide, text_injective 3 0 (by decide)⟩

/-- Claim C9: the returned string starts with `UNKNOWN[` exactly when the
input code is outside 0, 1, 2 — the fallback branch is taken precisely for
unrecognized codes. -/
theorem text_unknown_prefix_iff :
    ∀ t : tBT_TRANSPORT,
      "UNKNOWN[".data.isPrefixOf (bt_transport_text t).data ↔
        ¬(t.val = BT_TRANSPORT_AUTO ∨ t.val = BT_TRANSPORT_BR_EDR ∨
          t.val = BT_TRANSPORT_LE) := by decide

/-- Claim C10: for every 8-bit input code, the length of the returned string
is at least 10 and at most 19 characters. -/
theorem text_length_bounds :
    ∀ t : tBT_TRANSPORT,
      10 ≤ (bt_transport_text t).length ∧ (bt_transport_text t).length ≤ 19 := by
  decide

end BtTransport
